import Mathlib

/-!
Shallow embedding of the VibeCal CalDAV/WebDAV synchronization core
(`backend/src/services/caldavService.ts` together with the schema and
triggers in `backend/src/models/database.sql`).

Modelling conventions:
* Opaque generated identifiers (UUIDs for object ids, ETags, sync tokens,
  lock tokens, fallback UIDs) are drawn from a single monotone counter
  `DB.fresh`; each operation consumes a fixed number of counter slots, so
  every generated value is distinct from every value generated before.
* Row-creation timestamps (`created_at` of `sync_changes`) are taken from
  the same counter, so the append-only change list is kept in creation
  order and `ORDER BY created_at ASC` is the identity on it.
* Wall-clock time for the lock manager (`Date.now()`, `CURRENT_TIMESTAMP`)
  is an explicit `now : Nat` parameter in milliseconds, matching
  `new Date(Date.now() + timeoutSeconds * 1000)`.
* The `UNIQUE(calendar_id, uid)` constraint of `calendar_objects` is
  modelled as an explicit check inside the insert/update paths: a violating
  statement fails and (the transaction rolling back) leaves the state
  unchanged, which the `Except` result type expresses by returning no new
  state on error.
* A raw iCalendar document is modelled as its text payload together with
  the component list the external `ical.js` parser would produce for it
  (`none` when the parser throws).
* The `sync_changes.object_id` foreign key into `calendar_objects` is
  modelled on the delete path: the AFTER DELETE trigger inserts a change
  row referencing the row the statement just deleted, so the insert raises
  a foreign-key violation, the transaction rolls back, and
  `deleteCalendarObject` never succeeds.
-/

namespace Vibecal

/-- Error taxonomy of §7 of the specification, used to give distinct names
to the failure paths of the service code. -/
inductive CalError where
  | notFound
  | forbidden
  | conflict
  | validationError
  | locked
  | preconditionFailed
  | tokenInvalidated
  | internalError
  deriving Repr, DecidableEq

/-- One component of a parsed iCalendar document, as the service code reads
it from the external parser: a `type` tag plus the fields
`parseICalendarData` extracts (`uid`, `summary`, `start`, `end`,
`sequence`, `status`). Client-supplied opaque strings (uids) live in the
same `Nat` identifier space as generated ones. -/
structure ICalComponent where
  ctype : String
  uid : Option Nat
  summary : Option String
  dtstart : Option Int
  dtend : Option Int
  seq : Option Nat
  status : Option String
  deriving Repr, DecidableEq

/-- A raw iCalendar document: the raw text payload that is stored verbatim
in `icalendar_data`, and the component list the external parser yields on
it (`none` models the parser throwing on structurally invalid input). -/
structure RawDocument where
  text : String
  parsed : Option (List ICalComponent)
  deriving Repr, DecidableEq

/-- The normalized record `parseICalendarData` returns. -/
structure ParsedObject where
  uid : Nat
  componentType : String
  summary : Option String
  dtstart : Option Int
  dtend : Option Int
  sequence : Nat
  status : String
  deriving Repr, DecidableEq

/-- A row of the `calendars` table (CalendarCollection). The
`created_at`/`updated_at` bookkeeping timestamps are not modelled. -/
structure CalendarRow where
  id : Nat
  userId : Nat
  name : String
  displayName : String
  description : Option String
  color : String
  timezone : String
  syncToken : Nat
  isDefault : Bool
  isPublic : Bool
  webdavEnabled : Bool
  webcalEnabled : Bool
  deriving Repr, DecidableEq

/-- A row of the `calendar_objects` table (CalendarObject). -/
structure ObjectRow where
  id : Nat
  calendarId : Nat
  uid : Nat
  etag : Nat
  icalendarData : String
  componentType : String
  summary : Option String
  dtstart : Option Int
  dtend : Option Int
  sequence : Nat
  status : String
  deriving Repr, DecidableEq

/-- A row of the append-only `sync_changes` table (SyncChange). -/
structure SyncChangeRow where
  id : Nat
  calendarId : Nat
  objectId : Nat
  changeType : String
  syncToken : Nat
  resourcePath : String
  etag : Nat
  createdAt : Nat
  deriving Repr, DecidableEq

/-- A row of the `webdav_locks` table (WebDAVLock). `expiresAt` is an
absolute time in the same millisecond clock as the `now` parameters. -/
structure LockRow where
  id : Nat
  resourcePath : String
  lockToken : Nat
  lockType : String
  lockScope : String
  depth : String
  ownerInfo : Option String
  timeoutSeconds : Nat
  expiresAt : Nat
  deriving Repr, DecidableEq

/-- The durable store: the tables the claims are about, plus the fresh
identifier counter standing for the UUID generator and the row timestamp
source. -/
structure DB where
  calendars : List CalendarRow
  objects : List ObjectRow
  syncChanges : List SyncChangeRow
  locks : List LockRow
  fresh : Nat
  deriving Repr, DecidableEq

/-! ## Calendar collection operations -/

/-- `CalDAVService.getCalendar`: `SELECT * FROM calendars WHERE id = $1 AND
user_id = $2`. -/
def getCalendar (db : DB) (calendarId userId : Nat) : Option CalendarRow :=
  db.calendars.find? (fun c => c.id == calendarId && c.userId == userId)

/-- The partial update payload of `CalDAVService.updateCalendar`
(`Partial<CalendarCollection>` restricted to the fields the SQL update
lists). An outer `some` means the field was present in the request. -/
structure CalendarUpdate where
  name : Option String := none
  displayName : Option String := none
  description : Option (Option String) := none
  color : Option String := none
  timezone : Option String := none
  deriving Repr, DecidableEq

/-- Applies the `SET` clauses `updateCalendar` builds, one per present
field. -/
def applyCalendarUpdate (data : CalendarUpdate) (c : CalendarRow) : CalendarRow :=
  let c1 := match data.name with | some v => { c with name := v } | none => c
  let c2 := match data.displayName with | some v => { c1 with displayName := v } | none => c1
  let c3 := match data.description with | some v => { c2 with description := v } | none => c2
  let c4 := match data.color with | some v => { c3 with color := v } | none => c3
  match data.timezone with | some v => { c4 with timezone := v } | none => c4

/-- Whether `updateCalendar`'s `updates` array is nonempty. -/
def CalendarUpdate.hasUpdates (d : CalendarUpdate) : Bool :=
  d.name.isSome || d.displayName.isSome || d.description.isSome ||
    d.color.isSome || d.timezone.isSome

/-- `CalDAVService.updateCalendar`: rejects an empty update ("No fields to
update"), then runs `UPDATE calendars SET ... WHERE id = $n AND user_id =
$m RETURNING *`, failing when no row matches. It never touches
`sync_token`. -/
def updateCalendar (db : DB) (calendarId userId : Nat) (data : CalendarUpdate) :
    Except CalError (DB × CalendarRow) :=
  if data.hasUpdates then
    match getCalendar db calendarId userId with
    | none => .error .notFound
    | some c =>
      let newRow := applyCalendarUpdate data c
      let db1 := { db with
        calendars := db.calendars.map (fun x =>
          if x.id == calendarId && x.userId == userId then applyCalendarUpdate data x else x) }
      .ok (db1, newRow)
  else .error .validationError

/-! ## The sync trigger -/

/-- The SQL function `generate_sync_token` fired by
`calendar_objects_sync_trigger` AFTER INSERT/UPDATE/DELETE on
`calendar_objects`, within the same transaction as the row mutation: it
replaces the calendar's `sync_token` by a fresh UUID and inserts one
`sync_changes` row whose `sync_token` column re-reads the token just
assigned. This models the successful firings (INSERT and UPDATE); on the
DELETE path the inserted row's `object_id` foreign key is violated and
the transaction aborts, see `deleteCalendarObject`. -/
def generateSyncToken (db : DB) (calId objId : Nat) (changeType : String) (etag : Nat) : DB :=
  let newTok := db.fresh
  let changeRow : SyncChangeRow := {
    id := db.fresh + 1
    calendarId := calId
    objectId := objId
    changeType := changeType
    syncToken := newTok
    resourcePath := "/calendars/" ++ toString calId ++ "/" ++ toString objId ++ ".ics"
    etag := etag
    createdAt := db.fresh + 2 }
  { db with
    calendars := db.calendars.map (fun c =>
      if c.id == calId then { c with syncToken := newTok } else c)
    syncChanges := db.syncChanges ++ [changeRow]
    fresh := db.fresh + 3 }

/-! ## iCalendar parsing -/

/-- `CalDAVService.parseICalendarData`: filters the parsed items for
`type === "VEVENT"`, fails ("Invalid iCalendar data") when the parser threw
or no VEVENT is present, and otherwise normalizes the FIRST event,
substituting a fresh UUID when the event carries no uid
(`event.uid || uuidv4()`) and defaults for sequence and status. -/
def parseICalendarData (freshUid : Nat) (doc : RawDocument) : Except CalError ParsedObject :=
  match doc.parsed with
  | none => .error .validationError
  | some items =>
    match items.filter (fun c => c.ctype == "VEVENT") with
    | [] => .error .validationError
    | e :: _ =>
      .ok {
        uid := e.uid.getD freshUid
        componentType := "VEVENT"
        summary := e.summary
        dtstart := e.dtstart
        dtend := e.dtend
        sequence := e.seq.getD 0
        status := e.status.getD "CONFIRMED" }

/-! ## Calendar object operations -/

/-- Whether inserting uid `u` into calendar `calId` would violate the
`UNIQUE(calendar_id, uid)` constraint of `calendar_objects`. -/
def uidTaken (db : DB) (calId u : Nat) : Bool :=
  db.objects.any (fun o => o.calendarId == calId && o.uid == u)

/-- `CalDAVService.createCalendarObject`: access check, parse, then
`INSERT INTO calendar_objects ... RETURNING *` with a fresh object id and a
fresh ETag (`uuidv4()`), storing the raw `icalendarData` text verbatim. A
duplicate `(calendar_id, uid)` makes the INSERT fail on the unique
constraint, rolling the transaction back. On success the AFTER INSERT
trigger appends the "create" sync change and rotates the token within the
same transaction. -/
def createCalendarObject (db : DB) (calendarId userId : Nat) (doc : RawDocument) :
    Except CalError (DB × ObjectRow) :=
  match getCalendar db calendarId userId with
  | none => .error .notFound
  | some _ =>
    match parseICalendarData db.fresh doc with
    | .error e => .error e
    | .ok parsed =>
      if uidTaken db calendarId parsed.uid then .error .conflict
      else
        let objectId := db.fresh + 1
        let etag := db.fresh + 2
        let row : ObjectRow := {
          id := objectId
          calendarId := calendarId
          uid := parsed.uid
          etag := etag
          icalendarData := doc.text
          componentType := parsed.componentType
          summary := parsed.summary
          dtstart := parsed.dtstart
          dtend := parsed.dtend
          sequence := parsed.sequence
          status := parsed.status }
        let db1 := { db with objects := db.objects ++ [row], fresh := db.fresh + 3 }
        .ok (generateSyncToken db1 calendarId objectId "create" etag, row)

/-- `CalDAVService.updateCalendarObject`: access check, parse, then
`UPDATE calendar_objects SET uid = ..., etag = uuidv4(), ... WHERE
calendar_id = $1 AND id = $2 RETURNING *`, failing when no row matches.
The new row takes every parsed field (including `sequence = parsed.sequence
|| 0`, with no comparison against the previous sequence) and a fresh ETag;
re-assigning `uid` is subject to the same unique constraint. On success the
AFTER UPDATE trigger appends the "update" sync change and rotates the
token. -/
def updateCalendarObject (db : DB) (calendarId objectId userId : Nat) (doc : RawDocument) :
    Except CalError (DB × ObjectRow) :=
  match getCalendar db calendarId userId with
  | none => .error .notFound
  | some _ =>
    match parseICalendarData db.fresh doc with
    | .error e => .error e
    | .ok parsed =>
      match db.objects.find? (fun o => o.calendarId == calendarId && o.id == objectId) with
      | none => .error .notFound
      | some old =>
        if db.objects.any (fun o =>
            o.calendarId == calendarId && o.uid == parsed.uid && o.id != objectId) then
          .error .conflict
        else
          let newEtag := db.fresh + 1
          let newRow : ObjectRow := { old with
            uid := parsed.uid
            etag := newEtag
            icalendarData := doc.text
            componentType := parsed.componentType
            summary := parsed.summary
            dtstart := parsed.dtstart
            dtend := parsed.dtend
            sequence := parsed.sequence
            status := parsed.status }
          let db1 := { db with
            objects := db.objects.map (fun o =>
              if o.calendarId == calendarId && o.id == objectId then newRow else o)
            fresh := db.fresh + 2 }
          .ok (generateSyncToken db1 calendarId objectId "update" newEtag, newRow)

/-- `CalDAVService.deleteCalendarObject`: access check, then `DELETE FROM
calendar_objects WHERE calendar_id = $1 AND id = $2`, failing when no row
matches. When a row does match, the AFTER DELETE trigger
(`generate_sync_token`) inserts a `sync_changes` row with `object_id =
OLD.id`; `sync_changes.object_id` is a foreign key into
`calendar_objects`, whose referenced row this very statement has just
deleted, so the insert raises a foreign-key violation and the whole
transaction rolls back. Deletion of a calendar object therefore never
succeeds, and the store is left unchanged (the error carries no successor
store). -/
def deleteCalendarObject (db : DB) (calendarId objectId userId : Nat) :
    Except CalError DB :=
  match getCalendar db calendarId userId with
  | none => .error .notFound
  | some _ =>
    match db.objects.find? (fun o => o.calendarId == calendarId && o.id == objectId) with
    | none => .error .notFound
    | some _ => .error .internalError

/-! ## Sync operations -/

/-- `CalDAVService.getSyncToken`: reads the calendar's current
`sync_token`. -/
def getSyncToken (db : DB) (calendarId userId : Nat) : Except CalError Nat :=
  match getCalendar db calendarId userId with
  | none => .error .notFound
  | some c => .ok c.syncToken

/-- `CalDAVService.getChangesSince`: access check, then
`SELECT ... FROM sync_changes sc WHERE sc.calendar_id = $1 AND sc.created_at
> (SELECT created_at FROM sync_changes WHERE sync_token = $2 LIMIT 1) ORDER
BY created_at ASC`. When no `sync_changes` row carries the supplied token,
the scalar subquery is NULL, the comparison is never true, and the result
set is empty. The change list is maintained in `created_at` order, so the
filter is already sorted. -/
def getChangesSince (db : DB) (calendarId : Nat) (syncToken : Nat) (userId : Nat) :
    Except CalError (List SyncChangeRow) :=
  match getCalendar db calendarId userId with
  | none => .error .notFound
  | some _ =>
    match db.syncChanges.find? (fun sc => sc.syncToken == syncToken) with
    | none => .ok []
    | some ref =>
      .ok (db.syncChanges.filter (fun sc =>
        sc.calendarId == calendarId && ref.createdAt < sc.createdAt))

/-! ## Lock operations -/

/-- `CalDAVService.createLock`: unconditionally inserts a new
`webdav_locks` row with a fresh opaque token and `expires_at = Date.now() +
timeoutSeconds * 1000` (default 3600 seconds). The code performs no
conflict check against existing locks on the path. -/
def createLock (db : DB) (now : Nat) (resourcePath : String)
    (lockType lockScope depth : String) (timeoutSeconds : Nat := 3600)
    (ownerInfo : Option String := none) : DB × LockRow :=
  let row : LockRow := {
    id := db.fresh + 1
    resourcePath := resourcePath
    lockToken := db.fresh
    lockType := lockType
    lockScope := lockScope
    depth := depth
    ownerInfo := ownerInfo
    timeoutSeconds := timeoutSeconds
    expiresAt := now + timeoutSeconds * 1000 }
  ({ db with locks := db.locks ++ [row], fresh := db.fresh + 2 }, row)

/-- `CalDAVService.getLock`: `SELECT * FROM webdav_locks WHERE lock_token =
$1 AND expires_at > CURRENT_TIMESTAMP`. -/
def getLock (db : DB) (now : Nat) (lockToken : Nat) : Option LockRow :=
  db.locks.find? (fun l => l.lockToken == lockToken && decide (now < l.expiresAt))

/-- `CalDAVService.removeLock`: `DELETE FROM webdav_locks WHERE lock_token
= $1` (idempotent). -/
def removeLock (db : DB) (lockToken : Nat) : DB :=
  { db with locks := db.locks.filter (fun l => l.lockToken != lockToken) }

/-- `CalDAVService.cleanupExpiredLocks`: `DELETE FROM webdav_locks WHERE
expires_at < CURRENT_TIMESTAMP`, returning the deleted row count. -/
def cleanupExpiredLocks (db : DB) (now : Nat) : DB × Nat :=
  ({ db with locks := db.locks.filter (fun l => !decide (l.expiresAt < now)) },
    (db.locks.filter (fun l => decide (l.expiresAt < now))).length)

deriving instance DecidableEq for Except

/-! ## Concrete fixtures -/

/-- A calendar collection whose initial `sync_token` (50, assigned by the
column default at creation) has never been recorded in `sync_changes`. -/
def exCal : CalendarRow := {
  id := 1, userId := 1, name := "work", displayName := "Work",
  description := none, color := "#3B82F6", timezone := "UTC",
  syncToken := 50, isDefault := false, isPublic := false,
  webdavEnabled := true, webcalEnabled := true }

/-- A freshly created store holding only `exCal`, with an empty change
log. -/
def exDB : DB := {
  calendars := [exCal], objects := [], syncChanges := [], locks := [],
  fresh := 100 }

/-- A parsed VEVENT carrying uid 7. -/
def exEvent : ICalComponent := {
  ctype := "VEVENT", uid := some 7, summary := some "standup",
  dtstart := some 0, dtend := some 60, seq := some 0,
  status := some "CONFIRMED" }

/-- A well-formed document containing exactly one VEVENT. -/
def exDoc : RawDocument := { text := "ICS-A", parsed := some [exEvent] }

/-- The store after one successful `createCalendarObject` on `exDB`
(recovering the whole store on the error branch, which does not occur). -/
def exDB1 : DB :=
  match createCalendarObject exDB 1 1 exDoc with
  | .ok (d, _) => d
  | .error _ => exDB

/-- A second parsed VEVENT, uid 8. -/
def exEvent2 : ICalComponent := {
  ctype := "VEVENT", uid := some 8, summary := some "retro",
  dtstart := some 100, dtend := some 160, seq := some 0,
  status := some "CONFIRMED" }

/-- A second well-formed document, uid 8. -/
def exDoc2 : RawDocument := { text := "ICS-B", parsed := some [exEvent2] }

/-- The store after a second successful `createCalendarObject`. -/
def exDB2 : DB :=
  match createCalendarObject exDB1 1 1 exDoc2 with
  | .ok (d, _) => d
  | .error _ => exDB1

/-! ## Extraction lemmas -/

/-- Shape of a successful `createCalendarObject`: the access check passed,
the document parsed, the returned row is the freshly inserted one, and the
resulting store is the insert followed by the sync trigger. -/
lemma createCalendarObject_ok {db : DB} {calendarId userId : Nat}
    {doc : RawDocument} {db' : DB} {r : ObjectRow}
    (h : createCalendarObject db calendarId userId doc = .ok (db', r)) :
    ∃ p, parseICalendarData db.fresh doc = .ok p ∧
      (getCalendar db calendarId userId).isSome ∧
      uidTaken db calendarId p.uid = false ∧
      r = { id := db.fresh + 1
            calendarId := calendarId
            uid := p.uid
            etag := db.fresh + 2
            icalendarData := doc.text
            componentType := p.componentType
            summary := p.summary
            dtstart := p.dtstart
            dtend := p.dtend
            sequence := p.sequence
            status := p.status } ∧
      db' = generateSyncToken
        { db with objects := db.objects ++ [r], fresh := db.fresh + 3 }
        calendarId (db.fresh + 1) "create" (db.fresh + 2) := by
  unfold createCalendarObject at h
  split at h
  · simp at h
  · split at h
    · simp at h
    · rename_i parsed hparse
      split at h
      · simp at h
      · rename_i hdup
        simp only [Except.ok.injEq, Prod.mk.injEq] at h
        obtain ⟨hdb, hr⟩ := h
        subst hr
        subst hdb
        exact ⟨parsed, hparse, by simp_all, by simpa using hdup, rfl, rfl⟩

/-- Shape of a successful `updateCalendarObject`: the returned row carries
the fresh ETag `db.fresh + 1` and the parsed fields, and the resulting
store is the row rewrite followed by the sync trigger. -/
lemma updateCalendarObject_ok {db : DB} {calendarId objectId userId : Nat}
    {doc : RawDocument} {db' : DB} {r : ObjectRow}
    (h : updateCalendarObject db calendarId objectId userId doc = .ok (db', r)) :
    ∃ p old, parseICalendarData db.fresh doc = .ok p ∧
      (getCalendar db calendarId userId).isSome ∧
      db.objects.find? (fun o => o.calendarId == calendarId && o.id == objectId)
        = some old ∧
      r = { old with
            uid := p.uid
            etag := db.fresh + 1
            icalendarData := doc.text
            componentType := p.componentType
            summary := p.summary
            dtstart := p.dtstart
            dtend := p.dtend
            sequence := p.sequence
            status := p.status } ∧
      db' = generateSyncToken
        { db with
          objects := db.objects.map (fun o =>
            if o.calendarId == calendarId && o.id == objectId then r else o)
          fresh := db.fresh + 2 }
        calendarId objectId "update" (db.fresh + 1) := by
  unfold updateCalendarObject at h
  split at h
  · simp at h
  · split at h
    · simp at h
    · rename_i parsed hparse
      split at h
      · simp at h
      · rename_i old hold
        split at h
        · simp at h
        · simp only [Except.ok.injEq, Prod.mk.injEq] at h
          obtain ⟨hdb, hr⟩ := h
          subst hr
          subst hdb
          exact ⟨parsed, old, hparse, by simp_all, hold, rfl, rfl⟩

/-- `deleteCalendarObject` has no success path: every call fails — missing
calendar, missing object, or (when the row exists) the trigger's
foreign-key violation rolling the delete back. -/
lemma deleteCalendarObject_never_ok (db : DB) (calendarId objectId userId : Nat)
    (db' : DB) : deleteCalendarObject db calendarId objectId userId ≠ .ok db' := by
  unfold deleteCalendarObject
  split
  · simp
  · split <;> simp

/-! ## Claim theorems -/

/-- C1 — code-bug evidence. The mutation side of the claim holds: the
successful create appends exactly one `sync_changes` row and replaces the
collection's `syncToken` (50 becomes 103), with the recorded `sync_token`
of the appended row equal to the new current token. But the claimed
consequence fails: `getChangesSince` with the previous token 50 returns the
empty list — the initial token was never recorded in `sync_changes`, so the
scalar subquery of `getChangesSince` is NULL and no change is reported,
although one was just durably appended. -/
theorem create_rotates_token_yet_initial_token_sees_no_changes :
    getSyncToken exDB 1 1 = .ok 50 ∧
    exDB.syncChanges.length = 0 ∧
    exDB1.syncChanges.length = 1 ∧
    getSyncToken exDB1 1 1 = .ok 103 ∧
    (∀ sc ∈ exDB1.syncChanges, sc.syncToken = 103 ∧ sc.changeType = "create") ∧
    getChangesSince exDB1 1 50 1 = .ok [] := by
  decide

/-- C2 — code-bug evidence. After two successful creates starting from the
collection's initial token 50: the log holds two changes, and
`getChangesSince` behaves correctly for tokens that appear in the log
(token 103 sees exactly the later change, the current token 109 sees
nothing), but the initial token 50 — which every change was recorded
strictly after — yields the empty list instead of both changes, and no
input whatsoever can produce the distinguished `tokenInvalidated`
failure. -/
theorem changes_since_initial_token_empty_and_never_token_invalidated :
    (exDB2.syncChanges.length = 2 ∧
     getSyncToken exDB2 1 1 = .ok 109 ∧
     getChangesSince exDB2 1 109 1 = .ok [] ∧
     (getChangesSince exDB2 1 103 1).toOption.map List.length = some 1 ∧
     getChangesSince exDB2 1 50 1 = .ok []) ∧
    ∀ (db : DB) (calendarId tok userId : Nat),
      getChangesSince db calendarId tok userId ≠ .error .tokenInvalidated := by
  refine ⟨by decide, ?_⟩
  intro db calendarId tok userId
  unfold getChangesSince
  split
  · simp
  · split <;> simp

/-- A store with no locks, used for the lock scenarios. -/
def lockDB : DB := {
  calendars := [], objects := [], syncChanges := [], locks := [], fresh := 200 }

/-- First exclusive lock acquisition on the path. -/
def lockStep1 : DB × LockRow :=
  createLock lockDB 1000 "/calendars/1/" "write" "exclusive" "0" 3600 none

/-- Second exclusive lock acquisition on the very same path while the
first lock is still active. -/
def lockStep2 : DB × LockRow :=
  createLock lockStep1.1 1000 "/calendars/1/" "write" "exclusive" "0" 3600 none

/-- C3 — code-bug evidence. While an active (non-expired, `1000 <
expiresAt`) exclusive lock covers the path, a second exclusive
`createLock` on the same path succeeds and inserts a second lock row —
the code never checks existing locks, so the claimed `Locked` failure
cannot occur. The expiry arithmetic of the claim does hold: the new lock
expires at the acquisition time plus `timeoutSeconds` (default 3600,
scaled to the millisecond clock). -/
theorem second_exclusive_lock_on_same_path_succeeds :
    lockStep1.2.lockScope = "exclusive" ∧
    1000 < lockStep1.2.expiresAt ∧
    lockStep2.1.locks.length = 2 ∧
    lockStep1.2 ∈ lockStep2.1.locks ∧
    lockStep2.2 ∈ lockStep2.1.locks ∧
    lockStep2.2.resourcePath = lockStep1.2.resourcePath ∧
    lockStep2.2.lockScope = "exclusive" ∧
    lockStep2.2 ≠ lockStep1.2 ∧
    lockStep2.2.expiresAt = 1000 + 3600 * 1000 := by
  decide

/-- An existing object with revision counter `sequence = 5`. -/
def seqObj : ObjectRow := {
  id := 10, calendarId := 1, uid := 7, etag := 90, icalendarData := "ICS-OLD",
  componentType := "VEVENT", summary := some "standup", dtstart := some 0,
  dtend := some 60, sequence := 5, status := "CONFIRMED" }

/-- A store holding `seqObj` inside `exCal`. -/
def seqDB : DB := {
  calendars := [exCal], objects := [seqObj], syncChanges := [], locks := [],
  fresh := 100 }

/-- A parsed VEVENT for uid 7 carrying the LOWER sequence 3. -/
def seqEvent : ICalComponent := {
  ctype := "VEVENT", uid := some 7, summary := some "standup",
  dtstart := some 0, dtend := some 60, seq := some 3,
  status := some "CONFIRMED" }

/-- An update document for the same uid carrying the LOWER sequence 3. -/
def seqDoc : RawDocument := { text := "ICS-SEQ3", parsed := some [seqEvent] }

/-- C6 — code-bug evidence. `updateCalendarObject` performs no comparison
between the incoming and the stored sequence: updating the object whose
current sequence is 5 with a document carrying sequence 3 succeeds (no
`ValidationError`) and the stored sequence decreases to 3. -/
theorem update_with_lower_sequence_succeeds_and_decreases :
    seqObj.sequence = 5 ∧
    (updateCalendarObject seqDB 1 10 1 seqDoc).toOption.map
      (fun p => p.2.sequence) = some 3 ∧
    updateCalendarObject seqDB 1 10 1 seqDoc ≠ .error .validationError := by
  decide

/-- The normalized record `exDoc` parses to. -/
def exParsed : ParsedObject := {
  uid := 7, componentType := "VEVENT", summary := some "standup",
  dtstart := some 0, dtend := some 60, sequence := 0, status := "CONFIRMED" }

/-- C4 — confirmed. When the parsed document's uid is already present in
the collection (the `UNIQUE(calendar_id, uid)` constraint of
`calendar_objects`), `createCalendarObject` fails with `Conflict`. In this
state-passing embedding an error result carries no successor store, so the
object table, the change log and the collection's `syncToken` are exactly
those of the input store. -/
theorem duplicate_uid_create_fails_with_conflict
    (db : DB) (calendarId userId : Nat) (c : CalendarRow)
    (doc : RawDocument) (p : ParsedObject)
    (hcal : getCalendar db calendarId userId = some c)
    (hparse : parseICalendarData db.fresh doc = .ok p)
    (hdup : uidTaken db calendarId p.uid = true) :
    createCalendarObject db calendarId userId doc = .error .conflict := by
  simp [createCalendarObject, hcal, hparse, hdup]

/-- C4 witness: in `seqDB` the collection already holds an object with
uid 7, and creating `exDoc` (uid 7 again) fails with `Conflict`. -/
theorem duplicate_uid_create_fails_with_conflict_witness :
    getCalendar seqDB 1 1 = some exCal ∧
    parseICalendarData seqDB.fresh exDoc = .ok exParsed ∧
    uidTaken seqDB 1 exParsed.uid = true ∧
    createCalendarObject seqDB 1 1 exDoc = .error .conflict :=
  ⟨by decide, by decide, by decide,
    duplicate_uid_create_fails_with_conflict seqDB 1 1 exCal exDoc exParsed
      (by decide) (by decide) (by decide)⟩

/-- A parsed VEVENT carrying no uid at all. -/
def noUidEvent : ICalComponent := {
  ctype := "VEVENT", uid := none, summary := some "untitled",
  dtstart := none, dtend := none, seq := none, status := none }

/-- A structurally valid document whose only VEVENT has no extractable
uid. -/
def noUidDoc : RawDocument := { text := "ICS-NOUID", parsed := some [noUidEvent] }

/-- C5 counterexample: a document from which no uid can be extracted does
NOT fail with `ValidationError` — `parseICalendarData` substitutes a fresh
generated uid (`event.uid || uuidv4()`), and `createCalendarObject`
succeeds, storing an object whose uid is the generated identifier
(`exDB.fresh = 100`). -/
theorem create_without_uid_succeeds_with_generated_uid :
    (createCalendarObject exDB 1 1 noUidDoc).toOption.map
      (fun q => (q.2.uid, q.1.objects.length)) = some (100, 1) ∧
    createCalendarObject exDB 1 1 noUidDoc ≠ .error .validationError := by
  decide

/-- C5 (amended) — for every structurally invalid rawDocument (the
external parser throws, or the parsed content contains no VEVENT
component), `createObject` fails with `ValidationError` before any state
mutation (the error result carries no successor store). A missing uid
alone does not cause failure; a fresh uid is generated instead. -/
theorem structurally_invalid_document_rejected_before_mutation
    (db : DB) (calendarId userId : Nat) (c : CalendarRow) (doc : RawDocument)
    (hcal : getCalendar db calendarId userId = some c)
    (hbad : doc.parsed = none ∨
      ∃ items, doc.parsed = some items ∧
        items.filter (fun x => x.ctype == "VEVENT") = []) :
    createCalendarObject db calendarId userId doc = .error .validationError := by
  have hparse : parseICalendarData db.fresh doc = .error .validationError := by
    rcases hbad with h | ⟨items, hi, hf⟩
    · simp [parseICalendarData, h]
    · simp [parseICalendarData, hi, hf]
  simp [createCalendarObject, hcal, hparse]

/-- C5 witness: a document on which the parser throws is rejected with
`ValidationError`. -/
theorem structurally_invalid_document_rejected_witness :
    getCalendar exDB 1 1 = some exCal ∧
    createCalendarObject exDB 1 1 { text := "garbage", parsed := none }
      = .error .validationError :=
  ⟨by decide,
    structurally_invalid_document_rejected_before_mutation exDB 1 1 exCal
      { text := "garbage", parsed := none } (by decide) (Or.inl rfl)⟩

/-- `List.find?` commutes with mapping a function that does not affect the
predicate. -/
lemma find?_map_comm {α : Type} (f : α → α) (p : α → Bool) (l : List α)
    (hcomm : ∀ a, p (f a) = p a) : (l.map f).find? p = (l.find? p).map f := by
  induction l with
  | nil => rfl
  | cons a t ih =>
    simp only [List.map_cons, List.find?_cons, hcomm a]
    cases hp : p a
    · exact ih
    · rfl

/-- After the sync trigger fires for calendar `calId`, looking the calendar
up again yields the same row with its `syncToken` replaced by the freshly
generated value. -/
lemma getCalendar_generateSyncToken {db : DB} {calId userId : Nat}
    {c : CalendarRow} (objId : Nat) (ct : String) (etag : Nat)
    (hcal : getCalendar db calId userId = some c) :
    getCalendar (generateSyncToken db calId objId ct etag) calId userId =
      some { c with syncToken := db.fresh } := by
  have hid : (c.id == calId) = true := by
    have hpred := List.find?_some hcal
    exact (Bool.and_eq_true _ _ |>.mp hpred).1
  have hid' : c.id = calId := by simpa using hid
  unfold getCalendar at hcal ⊢
  unfold generateSyncToken
  rw [find?_map_comm _ _ _ (fun a => by
    by_cases ha : (a.id == calId) = true <;> simp [ha]), hcal]
  simp [hid']

/-- The fields of a collection row that `updateCalendar` must leave alone:
identity, ownership, the sync token, and the flags. -/
def preservesCollectionIdentity (c0 c1 : CalendarRow) : Prop :=
  c1.id = c0.id ∧ c1.userId = c0.userId ∧ c1.syncToken = c0.syncToken ∧
  c1.isDefault = c0.isDefault ∧ c1.isPublic = c0.isPublic ∧
  c1.webdavEnabled = c0.webdavEnabled ∧ c1.webcalEnabled = c0.webcalEnabled

/-- `applyCalendarUpdate` only ever touches the five display fields. -/
lemma applyCalendarUpdate_preserves (data : CalendarUpdate) (c : CalendarRow) :
    preservesCollectionIdentity c (applyCalendarUpdate data c) := by
  obtain ⟨n, dn, ds, co, tz⟩ := data
  cases n <;> cases dn <;> cases ds <;> cases co <;> cases tz <;>
    simp [applyCalendarUpdate, preservesCollectionIdentity]

/-- Shape of a successful `updateCalendar`: the store change is exactly the
field rewrite of the matching calendar rows. -/
lemma updateCalendar_ok {db : DB} {calendarId userId : Nat}
    {data : CalendarUpdate} {db' : DB} {c' : CalendarRow}
    (h : updateCalendar db calendarId userId data = .ok (db', c')) :
    db' = { db with calendars := db.calendars.map (fun x =>
      if x.id == calendarId && x.userId == userId
      then applyCalendarUpdate data x else x) } := by
  unfold updateCalendar at h
  split at h
  · split at h
    · simp at h
    · simp only [Except.ok.injEq, Prod.mk.injEq] at h
      exact h.1.symm
  · simp at h

/-- Fixture: a partial update touching only `displayName`. -/
def updData : CalendarUpdate := { displayName := some "Board" }

/-- C7 counterexample. `updateCalendar` on `exDB` with a payload
containing only `displayName` succeeds, stores a row whose `displayName`
becomes "Board" (the original was "Work"), and leaves the `syncToken`
at 50 — so the set of attributes the operation can change is not limited
to name, color, timezone and description. -/
theorem update_calendar_mutates_display_name :
    (updateCalendar exDB 1 1 updData).toOption.map
      (fun q => (q.2.displayName, q.2.syncToken,
        q.1.calendars.map CalendarRow.displayName)) =
      some ("Board", 50, ["Board"]) ∧
    exCal.displayName = "Work" := by
  decide

/-- C7 (amended) — `updateCollection` changes only the mutable display
attributes (name, displayName, color, timezone, description): every other
stored table is untouched, every calendar row keeps its identity, flags
and — in particular — its `syncToken`. Conversely (the collection
invariant) a successful create or update of a contained object always
replaces the collection's `syncToken` by a newly generated value
(`db.fresh + 3` resp. `db.fresh + 2`), distinct from the previous token;
and the "deleted" leg of the invariant is vacuous, because
`deleteCalendarObject` never succeeds (its trigger's change-log insert
violates the `sync_changes.object_id` foreign key and rolls back). -/
theorem update_collection_frame_and_sync_token_rotation :
    (∀ (db : DB) (calendarId userId : Nat) (data : CalendarUpdate)
        (db' : DB) (c' : CalendarRow),
      updateCalendar db calendarId userId data = .ok (db', c') →
        db'.objects = db.objects ∧ db'.syncChanges = db.syncChanges ∧
        db'.locks = db.locks ∧ db'.fresh = db.fresh ∧
        List.Forall₂ preservesCollectionIdentity db.calendars db'.calendars) ∧
    (∀ (db : DB) (calendarId userId : Nat) (c : CalendarRow)
        (doc : RawDocument) (db' : DB) (r : ObjectRow),
      getCalendar db calendarId userId = some c → c.syncToken < db.fresh →
      createCalendarObject db calendarId userId doc = .ok (db', r) →
        getSyncToken db' calendarId userId = .ok (db.fresh + 3) ∧
        c.syncToken ≠ db.fresh + 3) ∧
    (∀ (db : DB) (calendarId objectId userId : Nat) (c : CalendarRow)
        (doc : RawDocument) (db' : DB) (r : ObjectRow),
      getCalendar db calendarId userId = some c → c.syncToken < db.fresh →
      updateCalendarObject db calendarId objectId userId doc = .ok (db', r) →
        getSyncToken db' calendarId userId = .ok (db.fresh + 2) ∧
        c.syncToken ≠ db.fresh + 2) ∧
    (∀ (db : DB) (calendarId objectId userId : Nat) (db' : DB),
      deleteCalendarObject db calendarId objectId userId ≠ .ok db') := by
  refine ⟨?_, ?_, ?_, ?_⟩
  · intro db calendarId userId data db' c' h
    have hdb := updateCalendar_ok h
    subst hdb
    refine ⟨rfl, rfl, rfl, rfl, ?_⟩
    rw [List.forall₂_map_right_iff, List.forall₂_same]
    intro x _
    by_cases hx : (x.id == calendarId && x.userId == userId) = true
    · simpa [hx] using applyCalendarUpdate_preserves data x
    · simp only [hx]
      exact ⟨rfl, rfl, rfl, rfl, rfl, rfl, rfl⟩
  · intro db calendarId userId c doc db' r hcal htok h
    obtain ⟨p, hp, _, _, hr, hdb'⟩ := createCalendarObject_ok h
    subst hdb'
    have hcal1 : getCalendar
        { db with objects := db.objects ++ [r], fresh := db.fresh + 3 }
        calendarId userId = some c := hcal
    have hafter := getCalendar_generateSyncToken (db.fresh + 1) "create"
      (db.fresh + 2) hcal1
    refine ⟨?_, by omega⟩
    simp only [getSyncToken, hafter]
  · intro db calendarId objectId userId c doc db' r hcal htok h
    obtain ⟨p, old, hp, _, _, hr, hdb'⟩ := updateCalendarObject_ok h
    subst hdb'
    have hcal1 : getCalendar
        { db with
          objects := db.objects.map (fun o =>
            if o.calendarId == calendarId && o.id == objectId then r else o)
          fresh := db.fresh + 2 }
        calendarId userId = some c := hcal
    have hafter := getCalendar_generateSyncToken objectId "update"
      (db.fresh + 1) hcal1
    refine ⟨?_, by omega⟩
    simp only [getSyncToken, hafter]
  · intro db calendarId objectId userId db'
    exact deleteCalendarObject_never_ok db calendarId objectId userId db'

/-- The calendar row and store `updateCalendar exDB 1 1 updData`
produces. -/
def exCalBoard : CalendarRow := { exCal with displayName := "Board" }

/-- The store after the display-name update. -/
def exDBBoard : DB := { exDB with calendars := [exCalBoard] }

/-- The inserted object row of the first create on `exDB`. -/
def exRow : ObjectRow := {
  id := 101, calendarId := 1, uid := 7, etag := 102, icalendarData := "ICS-A",
  componentType := "VEVENT", summary := some "standup", dtstart := some 0,
  dtend := some 60, sequence := 0, status := "CONFIRMED" }

/-- C7 witness: the frame part instantiated on the concrete display-name
update, the rotation part on the concrete first create, and the
delete part on the concrete store holding object 101 (the delete fails at
the trigger's foreign-key violation, so it can never produce a successor
store). -/
theorem update_collection_frame_and_sync_token_rotation_witness :
    (updateCalendar exDB 1 1 updData = .ok (exDBBoard, exCalBoard) ∧
     exDBBoard.syncChanges = exDB.syncChanges ∧
     List.Forall₂ preservesCollectionIdentity exDB.calendars exDBBoard.calendars) ∧
    (getSyncToken exDB1 1 1 = .ok (exDB.fresh + 3) ∧
     exCal.syncToken ≠ exDB.fresh + 3) ∧
    deleteCalendarObject exDB1 1 101 1 ≠ .ok exDB1 :=
  ⟨⟨by decide,
    (update_collection_frame_and_sync_token_rotation.1 exDB 1 1 updData
      exDBBoard exCalBoard (by decide)).2.1,
    (update_collection_frame_and_sync_token_rotation.1 exDB 1 1 updData
      exDBBoard exCalBoard (by decide)).2.2.2.2⟩,
   update_collection_frame_and_sync_token_rotation.2.1 exDB 1 1 exCal exDoc
     exDB1 exRow (by decide) (by decide) (by decide),
   update_collection_frame_and_sync_token_rotation.2.2.2 exDB1 1 101 1 exDB1⟩

/-- Freshness invariant of the identifier counter: every ETag recorded in
the object table or in the change log was drawn below the current counter.
It holds in any state reachable from an empty store, because every
operation only stores values taken at or above the counter it started from
and leaves the counter strictly above all of them. -/
def DB.wf (db : DB) : Prop :=
  (∀ o ∈ db.objects, o.etag < db.fresh) ∧
  (∀ sc ∈ db.syncChanges, sc.etag < db.fresh)

instance (db : DB) : Decidable db.wf := by
  unfold DB.wf
  infer_instance

/-- The sync trigger preserves the freshness invariant whenever the ETag
it records is itself below the counter. -/
lemma wf_generateSyncToken {db : DB} {calId objId : Nat} {ct : String}
    {etag : Nat} (hobj : ∀ o ∈ db.objects, o.etag < db.fresh)
    (hlog : ∀ sc ∈ db.syncChanges, sc.etag < db.fresh)
    (he : etag < db.fresh) :
    (generateSyncToken db calId objId ct etag).wf := by
  refine ⟨?_, ?_⟩
  · intro o ho
    have hmem : o ∈ db.objects := ho
    have := hobj o hmem
    show o.etag < db.fresh + 3
    omega
  · intro sc hsc
    simp only [generateSyncToken, List.mem_append, List.mem_singleton] at hsc
    show sc.etag < db.fresh + 3
    rcases hsc with h1 | rfl
    · have := hlog sc h1
      omega
    · show etag < db.fresh + 3
      omega

/-- Every successful object write preserves the freshness invariant, so
the hypothesis of the ETag theorem holds in every store reachable from one
satisfying it (in particular from an empty store). Creates and updates are
the only successful mutations of the object table —
`deleteCalendarObject` never succeeds (`deleteCalendarObject_never_ok`),
and no other operation touches objects or the change log. -/
lemma wf_preserved_by_object_writes {db : DB} (hwf : db.wf) :
    (∀ {calendarId userId : Nat} {doc : RawDocument} {db' : DB} {r : ObjectRow},
      createCalendarObject db calendarId userId doc = .ok (db', r) → db'.wf) ∧
    (∀ {calendarId objectId userId : Nat} {doc : RawDocument} {db' : DB}
        {r : ObjectRow},
      updateCalendarObject db calendarId objectId userId doc = .ok (db', r) →
        db'.wf) := by
  obtain ⟨hobj, hlog⟩ := hwf
  refine ⟨?_, ?_⟩
  · intro calendarId userId doc db' r h
    obtain ⟨p, _, _, _, hr, hdb'⟩ := createCalendarObject_ok h
    subst hdb'
    refine wf_generateSyncToken ?_ ?_ ?_
    · intro o ho
      have ho' : o ∈ db.objects ++ [r] := ho
      rw [List.mem_append, List.mem_singleton] at ho'
      show o.etag < db.fresh + 3
      rcases ho' with h1 | rfl
      · have := hobj o h1
        omega
      · rw [hr]
        show db.fresh + 2 < db.fresh + 3
        omega
    · intro sc hsc
      have := hlog sc hsc
      show sc.etag < db.fresh + 3
      omega
    · show db.fresh + 2 < db.fresh + 3
      omega
  · intro calendarId objectId userId doc db' r h
    obtain ⟨p, old, _, _, _, hr, hdb'⟩ := updateCalendarObject_ok h
    subst hdb'
    refine wf_generateSyncToken ?_ ?_ ?_
    · intro o ho
      have ho' : o ∈ db.objects.map (fun x =>
          if x.calendarId == calendarId && x.id == objectId then r else x) := ho
      rw [List.mem_map] at ho'
      obtain ⟨a, ha, rfl⟩ := ho'
      show _ < db.fresh + 2
      by_cases hc : (a.calendarId == calendarId && a.id == objectId) = true
      · rw [if_pos hc, hr]
        show db.fresh + 1 < db.fresh + 2
        omega
      · rw [if_neg hc]
        have := hobj a ha
        omega
    · intro sc hsc
      have := hlog sc hsc
      show sc.etag < db.fresh + 2
      omega
    · show db.fresh + 1 < db.fresh + 2
      omega

/-- C8 — confirmed. Under the counter-freshness invariant, a successful
`updateCalendarObject` assigns the object an ETag (`db.fresh + 1`) that
differs from the object's current ETag and from every ETag ever recorded
for that object in the change log — ETags are never reused across
successive updates; and a successful `createCalendarObject` assigns an
ETag (`db.fresh + 2`) different from every ETag stored anywhere. -/
theorem etag_never_reused (db : DB) (hwf : db.wf) :
    (∀ (calendarId objectId userId : Nat) (doc : RawDocument)
        (db' : DB) (r : ObjectRow),
      updateCalendarObject db calendarId objectId userId doc = .ok (db', r) →
        (∀ o ∈ db.objects, o.id = objectId → r.etag ≠ o.etag) ∧
        (∀ sc ∈ db.syncChanges, sc.objectId = objectId → r.etag ≠ sc.etag)) ∧
    (∀ (calendarId userId : Nat) (doc : RawDocument) (db' : DB) (r : ObjectRow),
      createCalendarObject db calendarId userId doc = .ok (db', r) →
        (∀ o ∈ db.objects, r.etag ≠ o.etag) ∧
        (∀ sc ∈ db.syncChanges, r.etag ≠ sc.etag)) := by
  obtain ⟨hobj, hlog⟩ := hwf
  constructor
  · intro calendarId objectId userId doc db' r h
    obtain ⟨p, old, _, _, _, hr, _⟩ := updateCalendarObject_ok h
    have hre : r.etag = db.fresh + 1 := by rw [hr]
    constructor
    · intro o ho _
      have := hobj o ho
      omega
    · intro sc hsc _
      have := hlog sc hsc
      omega
  · intro calendarId userId doc db' r h
    obtain ⟨p, _, _, _, hr, _⟩ := createCalendarObject_ok h
    have hre : r.etag = db.fresh + 2 := by rw [hr]
    constructor
    · intro o ho
      have := hobj o ho
      omega
    · intro sc hsc
      have := hlog sc hsc
      omega

/-- The updated object row of `updateCalendarObject exDB1 1 101 1 exDoc2`. -/
def exRow2 : ObjectRow := {
  id := 101, calendarId := 1, uid := 8, etag := 107, icalendarData := "ICS-B",
  componentType := "VEVENT", summary := some "retro", dtstart := some 100,
  dtend := some 160, sequence := 0, status := "CONFIRMED" }

/-- The store after updating the first object with `exDoc2`. -/
def exDB1u : DB :=
  match updateCalendarObject exDB1 1 101 1 exDoc2 with
  | .ok (d, _) => d
  | .error _ => exDB1

/-- C8 witness: the invariant holds in the concrete post-create store
`exDB1`, the concrete update succeeds, and the new ETag 107 differs from
the object's previous ETag 102 and from the logged one. -/
theorem etag_never_reused_witness :
    DB.wf exDB1 ∧
    updateCalendarObject exDB1 1 101 1 exDoc2 = .ok (exDB1u, exRow2) ∧
    ((∀ o ∈ exDB1.objects, o.id = 101 → exRow2.etag ≠ o.etag) ∧
     (∀ sc ∈ exDB1.syncChanges, sc.objectId = 101 → exRow2.etag ≠ sc.etag)) :=
  ⟨by decide, by decide,
    (etag_never_reused exDB1 (by decide)).1 1 101 1 exDoc2 exDB1u exRow2
      (by decide)⟩

/-- Splitting a list by a Boolean predicate preserves its length. -/
lemma length_filter_not_add {α : Type} (p : α → Bool) (l : List α) :
    (l.filter (fun a => !p a)).length + (l.filter p).length = l.length := by
  induction l with
  | nil => rfl
  | cons a t ih =>
    cases hp : p a <;> simp [List.filter_cons, hp] <;> omega

/-- C9 — confirmed. A lock whose expiry has passed is invisible to
retrieval by token (`getLock` only ever returns locks with `now <
expiresAt`); `cleanupExpiredLocks` keeps exactly the locks whose expiry
has not passed and returns the count of the deleted ones (kept + returned
= total); and acquisition is never blocked: `createLock` always inserts
its new lock, whatever locks (expired or not) the table holds, with
expiry `now + timeoutSeconds` on the millisecond clock. -/
theorem expired_locks_invisible_and_swept_exactly (db : DB) (now : Nat) :
    (∀ tok l, getLock db now tok = some l → now < l.expiresAt) ∧
    (∀ l, l ∈ (cleanupExpiredLocks db now).1.locks ↔
        (l ∈ db.locks ∧ ¬ l.expiresAt < now)) ∧
    ((cleanupExpiredLocks db now).1.locks.length + (cleanupExpiredLocks db now).2
        = db.locks.length) ∧
    (∀ path ty scp dp ts oi,
      (createLock db now path ty scp dp ts oi).2
          ∈ (createLock db now path ty scp dp ts oi).1.locks ∧
      (createLock db now path ty scp dp ts oi).2.expiresAt = now + ts * 1000) := by
  refine ⟨?_, ?_, ?_, ?_⟩
  · intro tok l h
    have h' : db.locks.find?
        (fun x => x.lockToken == tok && decide (now < x.expiresAt)) = some l := h
    have := List.find?_some h'
    simp only [Bool.and_eq_true, decide_eq_true_eq] at this
    exact this.2
  · intro l
    simp [cleanupExpiredLocks, List.mem_filter]
  · exact length_filter_not_add _ db.locks
  · intro path ty scp dp ts oi
    refine ⟨?_, rfl⟩
    simp [createLock]

/-- A still-active lock (expires at 10). -/
def wLock : LockRow := {
  id := 30, resourcePath := "/calendars/1/", lockToken := 3,
  lockType := "write", lockScope := "exclusive", depth := "0",
  ownerInfo := none, timeoutSeconds := 1, expiresAt := 10 }

/-- An expired lock (expires at 2). -/
def wExpired : LockRow := {
  id := 31, resourcePath := "/calendars/1/", lockToken := 4,
  lockType := "write", lockScope := "exclusive", depth := "0",
  ownerInfo := none, timeoutSeconds := 1, expiresAt := 2 }

/-- A store holding one active and one expired lock. -/
def wDB : DB := {
  calendars := [], objects := [], syncChanges := [], locks := [wLock, wExpired],
  fresh := 40 }

/-- C9 witness: at time 5 the active lock is retrievable (and indeed
unexpired), the expired one is not retrievable, and the sweep removes
exactly the expired one, reporting one deletion. -/
theorem expired_locks_invisible_and_swept_exactly_witness :
    (getLock wDB 5 3 = some wLock ∧ (5 : Nat) < wLock.expiresAt) ∧
    getLock wDB 5 4 = none ∧
    (wExpired ∈ (cleanupExpiredLocks wDB 5).1.locks ↔
      (wExpired ∈ wDB.locks ∧ ¬ wExpired.expiresAt < 5)) ∧
    (cleanupExpiredLocks wDB 5).1.locks = [wLock] ∧
    (cleanupExpiredLocks wDB 5).2 = 1 :=
  ⟨⟨by decide,
    (expired_locks_invisible_and_swept_exactly wDB 5).1 3 wLock (by decide)⟩,
   by decide,
   (expired_locks_invisible_and_swept_exactly wDB 5).2.1 wExpired,
   by decide, by decide⟩

/-- C10 — confirmed. The parsed fields are derived from the FIRST VEVENT
of the document only: a document whose VEVENT filtrate is `e :: es` parses
— and creates/updates — exactly as the document containing `e` alone, all
further components being silently ignored, while the stored
`icalendar_data` payload of the written row is the full raw text. -/
theorem extra_vevents_ignored_and_raw_payload_stored
    (db : DB) (calendarId objectId userId : Nat) (t : String)
    (items : List ICalComponent) (e : ICalComponent) (es : List ICalComponent)
    (hfilter : items.filter (fun x => x.ctype == "VEVENT") = e :: es) :
    parseICalendarData db.fresh { text := t, parsed := some items } =
      parseICalendarData db.fresh { text := t, parsed := some [e] } ∧
    createCalendarObject db calendarId userId { text := t, parsed := some items } =
      createCalendarObject db calendarId userId { text := t, parsed := some [e] } ∧
    updateCalendarObject db calendarId objectId userId
        { text := t, parsed := some items } =
      updateCalendarObject db calendarId objectId userId
        { text := t, parsed := some [e] } ∧
    (∀ db' r, createCalendarObject db calendarId userId
        { text := t, parsed := some items } = .ok (db', r) →
      r.icalendarData = t) ∧
    (∀ db' r, updateCalendarObject db calendarId objectId userId
        { text := t, parsed := some items } = .ok (db', r) →
      r.icalendarData = t) := by
  have hmem : e ∈ items.filter (fun x => x.ctype == "VEVENT") := by
    rw [hfilter]
    exact List.mem_cons_self e es
  have he : (e.ctype == "VEVENT") = true := (List.mem_filter.mp hmem).2
  have hparse : parseICalendarData db.fresh { text := t, parsed := some items } =
      parseICalendarData db.fresh { text := t, parsed := some [e] } := by
    simp [parseICalendarData, hfilter, he]
  refine ⟨hparse, ?_, ?_, ?_, ?_⟩
  · unfold createCalendarObject
    simp only [hparse]
  · unfold updateCalendarObject
    simp only [hparse]
  · intro db' r h
    obtain ⟨p, _, _, _, hr, _⟩ := createCalendarObject_ok h
    rw [hr]
  · intro db' r h
    obtain ⟨p, old, _, _, _, hr, _⟩ := updateCalendarObject_ok h
    rw [hr]

/-- C10 witness: a concrete two-VEVENT document behaves exactly as the
document holding just its first VEVENT. -/
theorem extra_vevents_ignored_witness :
    createCalendarObject exDB 1 1
        { text := "ICS-TWO", parsed := some [exEvent, exEvent2] } =
      createCalendarObject exDB 1 1
        { text := "ICS-TWO", parsed := some [exEvent] } ∧
    parseICalendarData exDB.fresh
        { text := "ICS-TWO", parsed := some [exEvent, exEvent2] } =
      parseICalendarData exDB.fresh
        { text := "ICS-TWO", parsed := some [exEvent] } :=
  ⟨(extra_vevents_ignored_and_raw_payload_stored exDB 1 0 1 "ICS-TWO"
      [exEvent, exEvent2] exEvent [exEvent2] (by decide)).2.1,
   (extra_vevents_ignored_and_raw_payload_stored exDB 1 0 1 "ICS-TWO"
      [exEvent, exEvent2] exEvent [exEvent2] (by decide)).1⟩

end Vibecal
